import Mathlib

/-!
Shallow embedding of the natural-language-to-list-operations application:
`src/llm_assistant.py` (response schema and translator),
`src/database.py` (transactional cursor discipline), and
`src/llm_database_app.py` (action handlers, dispatcher, response builder).

Strings are modelled with Lean `String`; Python `str.strip` / `str.lower`
and SQLite `lower` are embedded as explicit character-list operations
(ASCII case folding, which is what SQLite's `lower` performs and what
Python's `lower` performs on the ASCII strings this development evaluates).
The SQLite `items` table is a list of rows plus the AUTOINCREMENT counter.
-/

/-- Python `str.strip` on a character list: drop leading and trailing
whitespace. -/
def pyStripList (l : List Char) : List Char :=
  ((l.dropWhile Char.isWhitespace).reverse.dropWhile Char.isWhitespace).reverse

/-- Python `content.strip()`. -/
def pyStrip (s : String) : String :=
  ⟨pyStripList s.data⟩

/-- Python `content.lower()` / SQLite `lower(content)` (ASCII case fold). -/
def pyLower (s : String) : String :=
  ⟨s.data.map Char.toLower⟩

/-- A single quote character, used by the query formatter. -/
def sQuote : String :=
  String.singleton (Char.ofNat 39)

/-- A row of the `items` table (`database.py`, `init_db`): id, content,
user_id. -/
structure Item where
  id : Nat
  content : String
  user_id : Nat
deriving DecidableEq, Repr

/-- The `items` table: its rows plus the next AUTOINCREMENT row id. -/
structure DBState where
  items : List Item
  nextId : Nat
deriving DecidableEq, Repr

/-- The empty database, as created by `init_db`. -/
def dbEmpty : DBState :=
  ⟨[], 1⟩

/-! ## Response schema (`llm_assistant.py`, Pydantic models) -/

/-- `InsertData` / `UpdateData`: both carry a single `content` field. -/
structure DataClause where
  content : String
deriving DecidableEq, Repr

/-- `WhereClause`: the exact content of the item to be updated or deleted. -/
structure WhereClause where
  content : String
deriving DecidableEq, Repr

/-- `Suggestion`: a message plus a list of suggested items. -/
structure Suggestion where
  message : String
  items : List String
deriving DecidableEq, Repr

/-- `AmbiguousRequest`: a clarification message. -/
structure AmbiguousRequest where
  message : String
deriving DecidableEq, Repr

/-- `DatabaseOperation`: action literal, data payload, where clause.
The `table` field is the literal `"items"` and is never consulted by the
dispatcher or the handlers, so it is omitted.  `where` is a Lean keyword,
hence the field name `whereClause`. -/
structure DatabaseOperation where
  action : String
  data : Option DataClause
  whereClause : Option WhereClause
deriving DecidableEq, Repr

/-- `LLMResponse`: container with three optional top-level fields. -/
structure LLMResponse where
  database_operation : Option DatabaseOperation
  ambiguous_request : Option AmbiguousRequest
  suggestion : Option Suggestion
deriving DecidableEq, Repr

/-- The `model_validator` `check_exclusive_fields`: fails when
`ambiguous_request` is populated together with `database_operation` or
`suggestion`. -/
def LLMResponse.check_exclusive_fields (r : LLMResponse) : Except String LLMResponse :=
  if r.ambiguous_request.isSome && (r.database_operation.isSome || r.suggestion.isSome) then
    Except.error "ambiguous_request cannot be set with database_operation or suggestion"
  else
    Except.ok r

/-- Pydantic construction of an `LLMResponse`: build the record, then run
the after-mode validator. -/
def mkLLMResponse (op : Option DatabaseOperation) (amb : Option AmbiguousRequest)
    (sugg : Option Suggestion) : Except String LLMResponse :=
  LLMResponse.check_exclusive_fields ⟨op, amb, sugg⟩

/-! ## Handler result payloads

Handlers in `llm_database_app.py` build JSON dictionaries; the keys that
occur are `success`, `message`, `itemId`, `error`, `action_type`, and (added
by `_build_final_response`) `suggestion`.  A missing key is `none`. -/

structure ResponseData where
  success : Option Bool
  message : Option String
  itemId : Option Nat
  error : Option String
  action_type : Option String
  suggestion : Option Suggestion
deriving DecidableEq, Repr

/-- A payload with no keys set. -/
def emptyResponse : ResponseData :=
  ⟨none, none, none, none, none, none⟩

/-- A payload carrying only an `error` key. -/
def errorResponse (msg : String) : ResponseData :=
  ⟨none, none, none, some msg, none, none⟩

/-! ## Action handlers (`llm_database_app.py`)

Each handler receives the open cursor (here: the current `DBState`), the
`DatabaseOperation` and the logged-in `user_id`, and returns the JSON
payload, the HTTP status code, and the state as left by its SQL statements.
Python truthiness of a string (`not content`) is emptiness. -/

/-- `_handle_insert` (lines 164-198): duplicate check against
`lower(content) = content.strip().lower()` scoped to the owner, then
insertion of the stripped original content. -/
def handle_insert (st : DBState) (db_op : DatabaseOperation) (user_id : Nat) :
    ResponseData × Nat × DBState :=
  match db_op.data with
  | none => (errorResponse "Missing 'content' in the data for INSERT.", 400, st)
  | some d =>
    if d.content = "" then
      (errorResponse "Missing 'content' in the data for INSERT.", 400, st)
    else
      let content := d.content
      let normalized_content := pyLower (pyStrip content)
      match st.items.find? (fun it => pyLower it.content == normalized_content
          && it.user_id == user_id) with
      | some existing_item =>
        (⟨some false,
          some ("Item " ++ sQuote ++ content ++ sQuote ++ " already exists on your list."),
          some existing_item.id, none, some "mutation", none⟩, 409, st)
      | none =>
        let new_item_id := st.nextId
        (⟨some true, some "Item added successfully.", some new_item_id, none,
          some "mutation", none⟩, 201,
         ⟨st.items ++ [⟨new_item_id, pyStrip content, user_id⟩], st.nextId + 1⟩)

/-- `_handle_update` (lines 200-218): `UPDATE items SET content = ? WHERE
content = ? AND user_id = ?`; not-found when zero rows were affected. -/
def handle_update (st : DBState) (db_op : DatabaseOperation) (user_id : Nat) :
    ResponseData × Nat × DBState :=
  let new_content := (db_op.data.map DataClause.content).getD ""
  let old_content := (db_op.whereClause.map WhereClause.content).getD ""
  if new_content = "" || old_content = "" then
    (errorResponse "UPDATE requires 'content' in both 'data' and 'where' clauses.", 400, st)
  else
    let updated_rows := st.items.countP
      (fun it => it.content == old_content && it.user_id == user_id)
    let st' : DBState :=
      ⟨st.items.map (fun it =>
          if it.content == old_content && it.user_id == user_id then
            { it with content := new_content }
          else it),
        st.nextId⟩
    if updated_rows = 0 then
      (⟨some false, some "No item found with that content to update.", none, none,
        some "mutation", none⟩, 404, st')
    else
      (⟨some true,
        some ("Successfully updated " ++ toString updated_rows ++ " item(s)."),
        none, none, some "mutation", none⟩, 200, st')

/-- `_handle_delete` (lines 220-236): `DELETE FROM items WHERE content = ?
AND user_id = ?`; not-found when zero rows were affected. -/
def handle_delete (st : DBState) (db_op : DatabaseOperation) (user_id : Nat) :
    ResponseData × Nat × DBState :=
  let content_to_delete := (db_op.whereClause.map WhereClause.content).getD ""
  if content_to_delete = "" then
    (errorResponse "DELETE action requires 'content' in the 'where' clause.", 400, st)
  else
    let deleted_rows := st.items.countP
      (fun it => it.content == content_to_delete && it.user_id == user_id)
    let st' : DBState :=
      ⟨st.items.filter (fun it =>
          !(it.content == content_to_delete && it.user_id == user_id)),
        st.nextId⟩
    if deleted_rows = 0 then
      (⟨some false, some "No item found with that content to delete.", none, none,
        some "mutation", none⟩, 404, st')
    else
      (⟨some true,
        some ("Successfully deleted " ++ toString deleted_rows ++ " item(s)."),
        none, none, some "mutation", none⟩, 200, st')

/-- `_handle_query` (lines 238-254): read all of the owner's contents and
format them. -/
def handle_query (st : DBState) (_db_op : DatabaseOperation) (user_id : Nat) :
    ResponseData × Nat × DBState :=
  let query_items := (st.items.filter (fun it => it.user_id == user_id)).map Item.content
  let item_contents := query_items.map (fun c => sQuote ++ c ++ sQuote)
  let message :=
    match item_contents with
    | [] => "You do not have any items on your list."
    | [c] => "You have one item: " ++ c ++ "."
    | cs => "Your items are: " ++ String.intercalate ", " cs ++ "."
  (⟨some true, some message, none, none, some "query", none⟩, 200, st)

/-- `_build_final_response` (lines 256-269): attach the translator's
suggestion when the status code is in the success band (`< 300`). -/
def build_final_response (base_response_data : ResponseData) (status_code : Nat)
    (llm_response : Option LLMResponse) : ResponseData × Nat :=
  let is_successful_operation := status_code < 300
  let llm_suggestion := llm_response.bind LLMResponse.suggestion
  if is_successful_operation && llm_suggestion.isSome then
    ({ base_response_data with suggestion := llm_suggestion }, status_code)
  else
    (base_response_data, status_code)

/-! ## Transactional cursor (`database.py`, `managed_cursor`)

The context manager yields a cursor, commits on normal exit (when
`commit_on_exit`), rolls back on an exception and re-raises it, and closes
the connection on every path.  A cursor body is a function from the
connection's view of the database to either a result and a new view, or a
raised storage fault. -/

/-- What a `with managed_cursor(...)` block left behind: the body's result
(or the re-raised fault), the durable database after commit/rollback, and
whether commit, rollback and close each ran. -/
structure CursorOutcome (α : Type) where
  result : Except Unit α
  finalDb : DBState
  committed : Bool
  rolledBack : Bool
  closed : Bool
deriving Repr

/-- `UserDatabase.managed_cursor` (lines 18-30). -/
def managed_cursor (commit_on_exit : Bool)
    (body : DBState → Except Unit (α × DBState)) (db : DBState) : CursorOutcome α :=
  match body db with
  | Except.ok (a, st) =>
    if commit_on_exit then
      ⟨Except.ok a, st, true, false, true⟩
    else
      ⟨Except.ok a, db, false, false, true⟩
  | Except.error e =>
    ⟨Except.error e, db, false, true, true⟩

/-! ## Request translator (`llm_assistant.py`, `LLMAssistant`) -/

/-- The LangChain chain: prompt inputs `user_input` and `item_context` to a
structured response, or `none` when the chain raises (the `except` clause of
`get_database_operation_from_text`).  The chain's behaviour is external, so
it is a parameter of the model. -/
def Chain : Type :=
  String → String → Option LLMResponse

/-- `LLMAssistant.__init__`: without an API key the model, and hence the
chain, is `None`. -/
structure LLMAssistant where
  chain : Option Chain

/-- Constructing an `LLMAssistant` from an optional API key and the chain
that `prompt_template | model | parser` would denote when a model exists. -/
def LLMAssistant.init (api_key : Option String) (chainImpl : Chain) : LLMAssistant :=
  if api_key.isSome then ⟨some chainImpl⟩ else ⟨none⟩

/-- The `item_context` block of the prompt (lines 99-103). -/
def itemContext (current_items : List Item) : String :=
  if current_items.isEmpty then
    "The user currently has no items."
  else
    let item_list_str := String.intercalate "\n"
      (current_items.map (fun item => "- \"" ++ item.content ++ "\""))
    "Here is the user's current list of items. Use this list to resolve ambiguity and to find the exact 'content' for UPDATE and DELETE operations.\n"
      ++ item_list_str

/-- `get_database_operation_from_text` (lines 93-112).  The second component
records whether the chain was invoked (i.e. whether network I/O towards the
external model was attempted). -/
def get_database_operation_from_text (a : LLMAssistant) (user_input : String)
    (current_items : List Item) : Option LLMResponse × Bool :=
  match a.chain with
  | none => (none, false)
  | some chain => (chain user_input (itemContext current_items), true)

/-! ## Dispatcher (`llm_database_app.py`, `process_request`, lines 272-326) -/

/-- Everything observable about one `/process-request` call: the JSON
payload and status code, the durable database afterwards, whether any
`cursor.execute` ran, whether the external model was invoked, and the
transaction bookkeeping of the `with` block. -/
structure ProcResult where
  payload : ResponseData
  status : Nat
  db : DBState
  storageAccessed : Bool
  networkAttempted : Bool
  committed : Bool
  rolledBack : Bool
  closed : Bool
deriving Repr

/-- The body of `process_request`'s `with user_db.managed_cursor() as
cursor:` block.  Its value carries the payload, the status code, and the
storage/network flags. -/
def process_request_body (a : LLMAssistant) (user_id : Nat) (user_text : String)
    (st : DBState) : Except Unit (((ResponseData × Nat) × Bool × Bool) × DBState) :=
  let items := st.items.filter (fun it => it.user_id == user_id)
  let (llm_response?, network) := get_database_operation_from_text a user_text items
  match llm_response? with
  | none =>
    Except.ok (((errorResponse "Failed to understand the request or LLM is not configured.",
      500), true, network), st)
  | some llm_response =>
    match llm_response.ambiguous_request with
    | some amb =>
      Except.ok (((⟨some false, none, none, some amb.message, none, none⟩, 400),
        true, network), st)
    | none =>
      match llm_response.database_operation with
      | none =>
        Except.ok (((errorResponse "LLM did not return a valid database operation.", 500),
          true, network), st)
      | some db_op =>
        if db_op.action = "INSERT" then
          let (d, c, st') := handle_insert st db_op user_id
          Except.ok ((build_final_response d c (some llm_response), true, network), st')
        else if db_op.action = "UPDATE" then
          let (d, c, st') := handle_update st db_op user_id
          Except.ok ((build_final_response d c (some llm_response), true, network), st')
        else if db_op.action = "DELETE" then
          let (d, c, st') := handle_delete st db_op user_id
          Except.ok ((build_final_response d c (some llm_response), true, network), st')
        else if db_op.action = "QUERY" then
          let (d, c, st') := handle_query st db_op user_id
          Except.ok ((build_final_response d c (some llm_response), true, network), st')
        else
          Except.ok (((errorResponse ("Unknown or unsupported action: " ++ db_op.action),
            400), true, network), st)

/-- `process_request`: the missing-text checks run before any transaction is
opened; the rest runs inside `managed_cursor` (commit on exit). -/
def process_request (a : LLMAssistant) (user_id : Nat) (user_text : String)
    (st : DBState) : ProcResult :=
  if user_text = "" then
    ⟨errorResponse "No text provided", 400, st, false, false, false, false, false⟩
  else
    let out := managed_cursor true (process_request_body a user_id user_text) st
    match out.result with
    | Except.ok ((d, c), accessed, network) =>
      ⟨d, c, out.finalDb, accessed, network, out.committed, out.rolledBack, out.closed⟩
    | Except.error _ =>
      ⟨errorResponse "An internal server error occurred.", 500, out.finalDb, true, false,
        out.committed, out.rolledBack, out.closed⟩

/-! ## Operation sequences and the per-owner uniqueness invariant -/

/-- One mutation request as it reaches a handler: the caller's owner id plus
the validated operation payload. -/
inductive ReqOp
  | ins (user : Nat) (content : String)
  | upd (user : Nat) (target : String) (newContent : String)
  | del (user : Nat) (target : String)
deriving DecidableEq, Repr

/-- The state left by running one request through its handler. -/
def applyOp (st : DBState) : ReqOp → DBState
  | ReqOp.ins u c => (handle_insert st ⟨"INSERT", some ⟨c⟩, none⟩ u).2.2
  | ReqOp.upd u t c => (handle_update st ⟨"UPDATE", some ⟨c⟩, some ⟨t⟩⟩ u).2.2
  | ReqOp.del u t => (handle_delete st ⟨"DELETE", none, some ⟨t⟩⟩ u).2.2

/-- Running a sequence of requests through the handlers. -/
def applyOps (st : DBState) (ops : List ReqOp) : DBState :=
  ops.foldl applyOp st

/-- The contents stored for one owner, in row order. -/
def ownerContents (st : DBState) (u : Nat) : List String :=
  (st.items.filter (fun it => it.user_id == u)).map Item.content

/-- The normalization the spec describes: whitespace-trim then case-fold. -/
def normalizeContent (c : String) : String :=
  pyLower (pyStrip c)

/-- The spec's uniqueness invariant for one owner: no two of the owner's
items have case-insensitive, whitespace-trimmed identical content. -/
def OwnerUnique (st : DBState) (u : Nat) : Prop :=
  ((ownerContents st u).map normalizeContent).Nodup

/-- Auxiliary invariant: every stored content of the owner is already
stripped (Insert stores `content.strip()`). -/
def OwnerTrimmed (st : DBState) (u : Nat) : Prop :=
  ∀ c ∈ ownerContents st u, pyStrip c = c

/-- An operation that only inserts or deletes (no Update). -/
def ReqOp.isInsertOrDelete : ReqOp → Bool
  | ReqOp.ins _ _ => true
  | ReqOp.del _ _ => true
  | ReqOp.upd _ _ _ => false

/-! ## Storage-fault injection (`C3` scenario)

`sqlite3` may raise from any `cursor.execute`.  The body below follows
`process_request` and `_handle_insert` up to and including the
duplicate-check `SELECT`, and then raises from the `INSERT` statement —
the scenario of a storage fault inside the Insert handler after a prior
successful read. -/

def insert_fault_body (a : LLMAssistant) (user_id : Nat) (user_text : String)
    (content : String) (st : DBState) :
    Except Unit (((ResponseData × Nat) × Bool × Bool) × DBState) :=
  let items := st.items.filter (fun it => it.user_id == user_id)
  let (_llm_response?, _network) := get_database_operation_from_text a user_text items
  let normalized_content := pyLower (pyStrip content)
  let _existing_item := st.items.find? (fun it => pyLower it.content == normalized_content
    && it.user_id == user_id)
  Except.error ()

/-! ## Helper lemmas -/

theorem dropWhile_dropWhile_self (p : α → Bool) (l : List α) :
    (l.dropWhile p).dropWhile p = l.dropWhile p := by
  induction l with
  | nil => rfl
  | cons a t ih =>
    by_cases h : p a
    · simp [List.dropWhile_cons, h, ih]
    · simp [List.dropWhile_cons, h]

theorem dropWhile_eq_self_of_front (p : α → Bool) {t m : List α}
    (hm : m.dropWhile p = m) (hp : List.IsPrefix t m) : t.dropWhile p = t := by
  cases t with
  | nil => rfl
  | cons a t' =>
    obtain ⟨s, hs⟩ := hp
    by_cases hpa : p a
    · exfalso
      rw [← hs] at hm
      rw [List.cons_append, List.dropWhile_cons, if_pos hpa] at hm
      have hlen : ((t' ++ s).dropWhile p).length ≤ (t' ++ s).length :=
        ((List.dropWhile_suffix p).sublist).length_le
      rw [hm] at hlen
      simp at hlen
    · rw [List.dropWhile_cons, if_neg hpa]

theorem rstrip_front (p : α → Bool) (m : List α) :
    List.IsPrefix ((m.reverse.dropWhile p).reverse) m := by
  have h2 : List.IsPrefix ((m.reverse.dropWhile p).reverse) m.reverse.reverse :=
    List.reverse_prefix.mpr (List.dropWhile_suffix p)
  rwa [List.reverse_reverse] at h2

theorem pyStripList_idem (l : List Char) : pyStripList (pyStripList l) = pyStripList l := by
  unfold pyStripList
  have hmm : (l.dropWhile Char.isWhitespace).dropWhile Char.isWhitespace
      = l.dropWhile Char.isWhitespace := dropWhile_dropWhile_self _ l
  have ht := dropWhile_eq_self_of_front Char.isWhitespace hmm
    (rstrip_front Char.isWhitespace (l.dropWhile Char.isWhitespace))
  rw [ht, List.reverse_reverse, dropWhile_dropWhile_self]

theorem pyStrip_idem (s : String) : pyStrip (pyStrip s) = pyStrip s := by
  show String.mk (pyStripList (pyStripList s.data)) = String.mk (pyStripList s.data)
  rw [pyStripList_idem]

theorem map_eq_self_of_mem {f : α → α} {l : List α} (h : ∀ x ∈ l, f x = x) :
    l.map f = l := by
  induction l with
  | nil => rfl
  | cons a t ih =>
    simp only [List.map_cons, h a (List.mem_cons_self a t), List.cons.injEq, true_and]
    exact ih (fun x hx => h x (List.mem_cons_of_mem a hx))

/-! ## Handler equations -/

theorem handle_insert_eq_conflict {st : DBState} {c : String} {u : Nat} {ex : Item}
    (hc : c ≠ "")
    (hf : st.items.find? (fun it => pyLower it.content == pyLower (pyStrip c)
      && it.user_id == u) = some ex) :
    handle_insert st ⟨"INSERT", some ⟨c⟩, none⟩ u
      = (⟨some false,
          some ("Item " ++ sQuote ++ c ++ sQuote ++ " already exists on your list."),
          some ex.id, none, some "mutation", none⟩, 409, st) := by
  unfold handle_insert
  simp [hc, hf]

theorem handle_insert_eq_success {st : DBState} {c : String} {u : Nat}
    (hc : c ≠ "")
    (hf : st.items.find? (fun it => pyLower it.content == pyLower (pyStrip c)
      && it.user_id == u) = none) :
    handle_insert st ⟨"INSERT", some ⟨c⟩, none⟩ u
      = (⟨some true, some "Item added successfully.", some st.nextId, none,
          some "mutation", none⟩, 201,
         ⟨st.items ++ [⟨st.nextId, pyStrip c, u⟩], st.nextId + 1⟩) := by
  unfold handle_insert
  simp [hc, hf]

theorem handle_insert_state_of_empty {st : DBState} {u : Nat} (c : String)
    (hc : c = "") :
    (handle_insert st ⟨"INSERT", some ⟨c⟩, none⟩ u).2.2 = st := by
  unfold handle_insert
  simp [hc]

theorem handle_update_notfound {st : DBState} {u : Nat} {target newc : String}
    (hnew : newc ≠ "") (htgt : target ≠ "")
    (hmiss : ∀ it ∈ st.items, it.user_id = u → it.content ≠ target) :
    handle_update st ⟨"UPDATE", some ⟨newc⟩, some ⟨target⟩⟩ u
      = (⟨some false, some "No item found with that content to update.", none, none,
          some "mutation", none⟩, 404, st) := by
  have hpred : ∀ it ∈ st.items, (it.content == target && it.user_id == u) = false := by
    intro it hit
    by_cases hu : it.user_id = u
    · have := hmiss it hit hu
      simp [this]
    · simp [hu]
  have hcnt : st.items.countP (fun it => it.content == target && it.user_id == u) = 0 :=
    List.countP_eq_zero.mpr (by intro it hit; simp [hpred it hit])
  have hmap : st.items.map (fun it =>
      if it.content = target ∧ it.user_id = u then { it with content := newc }
      else it) = st.items :=
    map_eq_self_of_mem (by
      intro it hit
      rw [if_neg]
      rintro ⟨h1, h2⟩
      exact hmiss it hit h2 h1)
  unfold handle_update
  simp [hnew, htgt, hcnt, hmap]

theorem handle_delete_notfound {st : DBState} {u : Nat} {target : String}
    (htgt : target ≠ "")
    (hmiss : ∀ it ∈ st.items, it.user_id = u → it.content ≠ target) :
    handle_delete st ⟨"DELETE", none, some ⟨target⟩⟩ u
      = (⟨some false, some "No item found with that content to delete.", none, none,
          some "mutation", none⟩, 404, st) := by
  have hpred : ∀ it ∈ st.items, (it.content == target && it.user_id == u) = false := by
    intro it hit
    by_cases hu : it.user_id = u
    · have := hmiss it hit hu
      simp [this]
    · simp [hu]
  have hcnt : st.items.countP (fun it => it.content == target && it.user_id == u) = 0 :=
    List.countP_eq_zero.mpr (by intro it hit; simp [hpred it hit])
  have hfil : st.items.filter (fun it =>
      !(it.content == target) || !(it.user_id == u)) = st.items := by
    apply List.filter_eq_self.mpr
    intro it hit
    by_cases hu : it.user_id = u
    · simp [hmiss it hit hu]
    · simp [hu]
  unfold handle_delete
  simp [htgt, hcnt, hfil]

theorem build_final_response_not_success {d : ResponseData} {c : Nat}
    (r : Option LLMResponse) (h : ¬ c < 300) :
    build_final_response d c r = (d, c) := by
  unfold build_final_response
  simp [h]

theorem build_final_response_success {d : ResponseData} {c : Nat} {r : LLMResponse}
    {sg : Suggestion} (h : c < 300) (hs : r.suggestion = some sg) :
    build_final_response d c (some r) = ({ d with suggestion := some sg }, c) := by
  unfold build_final_response
  simp [h, hs]

theorem build_final_response_no_suggestion {d : ResponseData} {c : Nat}
    {r : LLMResponse} (hs : r.suggestion = none) :
    build_final_response d c (some r) = (d, c) := by
  unfold build_final_response
  simp [hs]

/-! ## Owner-scoping lemmas: handlers neither read nor write other owners' rows -/

/-- Rows of one owner, as selected by the SQL `WHERE ... user_id = ?`. -/
def ownerRows (st : DBState) (v : Nat) : List Item :=
  st.items.filter (fun it => it.user_id == v)

theorem find?_restrict_owner (l : List Item) (u : Nat) (q : Item → Bool) :
    l.find? (fun it => q it && it.user_id == u)
      = (l.filter (fun it => it.user_id == u)).find? (fun it => q it && it.user_id == u) := by
  induction l with
  | nil => rfl
  | cons a t ih =>
    by_cases hu : a.user_id = u
    · by_cases hq : q a = true
      · simp [List.find?_cons, List.filter_cons, hu, hq]
      · simp [List.find?_cons, List.filter_cons, hu, hq, ih]
    · simp [List.find?_cons, List.filter_cons, hu, ih]

theorem countP_restrict_owner (l : List Item) (u : Nat) (q : Item → Bool) :
    l.countP (fun it => q it && it.user_id == u)
      = (l.filter (fun it => it.user_id == u)).countP (fun it => q it && it.user_id == u) := by
  induction l with
  | nil => rfl
  | cons a t ih =>
    by_cases hu : a.user_id = u
    · by_cases hq : q a = true
      · simp [List.countP_cons, List.filter_cons, hu, hq, ih]
      · simp [List.countP_cons, List.filter_cons, hu, hq, ih]
    · simp [List.countP_cons, List.filter_cons, hu, ih]

/-- The state left by `_handle_update` is either untouched (bad request) or
the result of the single `UPDATE` statement. -/
theorem handle_update_state (st : DBState) (db_op : DatabaseOperation) (u : Nat) :
    (handle_update st db_op u).2.2 = st
    ∨ (handle_update st db_op u).2.2 = ⟨st.items.map (fun it =>
        if it.content == (db_op.whereClause.map WhereClause.content).getD ""
            && it.user_id == u then
          { it with content := (db_op.data.map DataClause.content).getD "" }
        else it), st.nextId⟩ := by
  unfold handle_update
  by_cases h0 : (((db_op.data.map DataClause.content).getD "" = ""
      || (db_op.whereClause.map WhereClause.content).getD "" = "") : Bool) = true
  · left
    rw [if_pos h0]
  · right
    rw [if_neg h0]
    by_cases hcnt : st.items.countP (fun it =>
        it.content == (db_op.whereClause.map WhereClause.content).getD ""
        && it.user_id == u) = 0
    · rw [if_pos hcnt]
    · rw [if_neg hcnt]

/-- The state left by `_handle_delete` is either untouched (bad request) or
the result of the single `DELETE` statement. -/
theorem handle_delete_state (st : DBState) (db_op : DatabaseOperation) (u : Nat) :
    (handle_delete st db_op u).2.2 = st
    ∨ (handle_delete st db_op u).2.2 = ⟨st.items.filter (fun it =>
        !(it.content == (db_op.whereClause.map WhereClause.content).getD ""
          && it.user_id == u)), st.nextId⟩ := by
  unfold handle_delete
  by_cases h0 : (db_op.whereClause.map WhereClause.content).getD "" = ""
  · left
    rw [if_pos h0]
  · right
    rw [if_neg h0]
    by_cases hcnt : st.items.countP (fun it =>
        it.content == (db_op.whereClause.map WhereClause.content).getD ""
        && it.user_id == u) = 0
    · rw [if_pos hcnt]
    · rw [if_neg hcnt]

/-- Insert never touches another owner's rows. -/
theorem insert_frame (st : DBState) (db_op : DatabaseOperation) (u v : Nat) (hvu : v ≠ u) :
    ownerRows (handle_insert st db_op u).2.2 v = ownerRows st v := by
  unfold handle_insert ownerRows
  match db_op.data with
  | none => rfl
  | some d =>
    by_cases hc : d.content = ""
    · simp [hc]
    · simp only [hc]
      cases hf : st.items.find? (fun it => pyLower it.content == pyLower (pyStrip d.content)
          && it.user_id == u) with
      | some ex => simp [hf]
      | none => simp [hf, List.filter_append, hvu, Ne.symm hvu]

/-- Update never touches another owner's rows. -/
theorem update_frame (st : DBState) (db_op : DatabaseOperation) (u v : Nat) (hvu : v ≠ u) :
    ownerRows (handle_update st db_op u).2.2 v = ownerRows st v := by
  rcases handle_update_state st db_op u with h | h
  · rw [h]
  · rw [h]
    unfold ownerRows
    rw [List.filter_map]
    have hcomp : ((fun (it : Item) => it.user_id == v) ∘ (fun (it : Item) =>
        if it.content == (db_op.whereClause.map WhereClause.content).getD ""
            && it.user_id == u then
          { it with content := (db_op.data.map DataClause.content).getD "" }
        else it)) = (fun (it : Item) => it.user_id == v) := by
      funext it
      by_cases hint : (it.content == (db_op.whereClause.map WhereClause.content).getD ""
          && it.user_id == u) = true
      · simp only [Function.comp_apply, if_pos hint]
      · simp only [Function.comp_apply, if_neg hint]
    rw [hcomp]
    apply map_eq_self_of_mem
    intro it hit
    have hveq : it.user_id = v := by
      have := List.of_mem_filter hit
      simpa using this
    rw [if_neg]
    intro hcond
    have hueq : it.user_id = u := by
      simp only [Bool.and_eq_true, beq_iff_eq] at hcond
      exact hcond.2
    exact hvu (by rw [← hveq, hueq])

/-- Delete never touches another owner's rows. -/
theorem delete_frame (st : DBState) (db_op : DatabaseOperation) (u v : Nat) (hvu : v ≠ u) :
    ownerRows (handle_delete st db_op u).2.2 v = ownerRows st v := by
  rcases handle_delete_state st db_op u with h | h
  · rw [h]
  · rw [h]
    unfold ownerRows
    rw [List.filter_filter]
    apply List.filter_congr
    intro a _
    by_cases hv : a.user_id = v
    · simp [hv, hvu]
    · simp [hv]

/-- Query leaves the state unchanged. -/
theorem query_frame (st : DBState) (db_op : DatabaseOperation) (u v : Nat) :
    ownerRows (handle_query st db_op u).2.2 v = ownerRows st v := rfl

/-- The insert handler's payload and status depend only on the caller's own
rows and the AUTOINCREMENT counter. -/
theorem insert_reads_only_owner (st1 st2 : DBState) (db_op : DatabaseOperation) (u : Nat)
    (hrows : ownerRows st1 u = ownerRows st2 u) (hnext : st1.nextId = st2.nextId) :
    ((handle_insert st1 db_op u).1, (handle_insert st1 db_op u).2.1)
      = ((handle_insert st2 db_op u).1, (handle_insert st2 db_op u).2.1) := by
  unfold ownerRows at hrows
  cases hd : db_op.data with
  | none => simp [handle_insert, hd]
  | some d =>
    by_cases hc : d.content = ""
    · simp [handle_insert, hd, hc]
    · have hfind : st1.items.find? (fun it => pyLower it.content == pyLower (pyStrip d.content)
            && it.user_id == u)
          = st2.items.find? (fun it => pyLower it.content == pyLower (pyStrip d.content)
            && it.user_id == u) := by
        rw [find?_restrict_owner st1.items u, find?_restrict_owner st2.items u, hrows]
      simp only [handle_insert, hd, hfind, hnext]
      cases hf : st2.items.find? (fun it => pyLower it.content == pyLower (pyStrip d.content)
          && it.user_id == u) with
      | some ex => simp [hf, hc]
      | none => simp [hf, hc]

/-- The update handler's payload and status depend only on the caller's own
rows. -/
theorem update_reads_only_owner (st1 st2 : DBState) (db_op : DatabaseOperation) (u : Nat)
    (hrows : ownerRows st1 u = ownerRows st2 u) :
    ((handle_update st1 db_op u).1, (handle_update st1 db_op u).2.1)
      = ((handle_update st2 db_op u).1, (handle_update st2 db_op u).2.1) := by
  unfold ownerRows at hrows
  have hcnt : st1.items.countP (fun it =>
        it.content == (db_op.whereClause.map WhereClause.content).getD ""
        && it.user_id == u)
      = st2.items.countP (fun it =>
        it.content == (db_op.whereClause.map WhereClause.content).getD ""
        && it.user_id == u) := by
    rw [countP_restrict_owner st1.items u, countP_restrict_owner st2.items u, hrows]
  by_cases h0 : (((db_op.data.map DataClause.content).getD "" = ""
      || (db_op.whereClause.map WhereClause.content).getD "" = "") : Bool) = true
  · simp only [handle_update, h0, if_true]
  · simp only [handle_update, h0, if_false, hcnt]
    by_cases hz : st2.items.countP (fun it =>
        it.content == (db_op.whereClause.map WhereClause.content).getD ""
        && it.user_id == u) = 0
    · rw [if_pos hz, if_pos hz]; rfl
    · rw [if_neg hz, if_neg hz]; rfl

/-- The delete handler's payload and status depend only on the caller's own
rows. -/
theorem delete_reads_only_owner (st1 st2 : DBState) (db_op : DatabaseOperation) (u : Nat)
    (hrows : ownerRows st1 u = ownerRows st2 u) :
    ((handle_delete st1 db_op u).1, (handle_delete st1 db_op u).2.1)
      = ((handle_delete st2 db_op u).1, (handle_delete st2 db_op u).2.1) := by
  unfold ownerRows at hrows
  have hcnt : st1.items.countP (fun it =>
        it.content == (db_op.whereClause.map WhereClause.content).getD ""
        && it.user_id == u)
      = st2.items.countP (fun it =>
        it.content == (db_op.whereClause.map WhereClause.content).getD ""
        && it.user_id == u) := by
    rw [countP_restrict_owner st1.items u, countP_restrict_owner st2.items u, hrows]
  by_cases h0 : (db_op.whereClause.map WhereClause.content).getD "" = ""
  · simp only [handle_delete, h0, if_true]
  · simp only [handle_delete, h0, if_false, hcnt]
    by_cases hz : st2.items.countP (fun it =>
        it.content == (db_op.whereClause.map WhereClause.content).getD ""
        && it.user_id == u) = 0
    · rw [if_pos hz, if_pos hz]
    · rw [if_neg hz, if_neg hz]

/-- The query handler's payload and status depend only on the caller's own
rows. -/
theorem query_reads_only_owner (st1 st2 : DBState) (db_op : DatabaseOperation) (u : Nat)
    (hrows : ownerRows st1 u = ownerRows st2 u) :
    ((handle_query st1 db_op u).1, (handle_query st1 db_op u).2.1)
      = ((handle_query st2 db_op u).1, (handle_query st2 db_op u).2.1) := by
  unfold ownerRows at hrows
  simp only [handle_query, hrows]

/-! ## Preservation of the per-owner uniqueness invariant -/

theorem mem_ownerContents {st : DBState} {v : Nat} {a : String}
    (h : a ∈ ownerContents st v) :
    ∃ it ∈ st.items, it.user_id = v ∧ it.content = a := by
  unfold ownerContents at h
  rcases List.mem_map.mp h with ⟨it, hit, rfl⟩
  refine ⟨it, List.mem_of_mem_filter hit, ?_, rfl⟩
  have h2 := List.of_mem_filter hit
  simpa using h2

theorem insert_preserves_inv (st : DBState) (u : Nat) (c : String)
    (hinv : ∀ w, OwnerUnique st w ∧ OwnerTrimmed st w) :
    ∀ v, OwnerUnique ((handle_insert st ⟨"INSERT", some ⟨c⟩, none⟩ u).2.2) v
      ∧ OwnerTrimmed ((handle_insert st ⟨"INSERT", some ⟨c⟩, none⟩ u).2.2) v := by
  intro v
  by_cases hc : c = ""
  · rw [handle_insert_state_of_empty c hc]
    exact hinv v
  · cases hf : st.items.find? (fun it => pyLower it.content == pyLower (pyStrip c)
        && it.user_id == u) with
    | some ex =>
      rw [handle_insert_eq_conflict hc hf]
      exact hinv v
    | none =>
      rw [handle_insert_eq_success hc hf]
      dsimp only
      by_cases hv : v = u
      · subst hv
        have hoc : ownerContents ⟨st.items ++ [⟨st.nextId, pyStrip c, v⟩], st.nextId + 1⟩ v
            = ownerContents st v ++ [pyStrip c] := by
          unfold ownerContents
          rw [List.filter_append, List.map_append]
          simp
        have hnotin : normalizeContent (pyStrip c)
            ∉ (ownerContents st v).map normalizeContent := by
          intro hmem
          rcases List.mem_map.mp hmem with ⟨a, ha, hna⟩
          rcases mem_ownerContents ha with ⟨it, hit, hitu, hitc⟩
          have hnone := List.find?_eq_none.mp hf it hit
          apply hnone
          have htr : pyStrip a = a := (hinv v).2 a ha
          have hlow : pyLower it.content = pyLower (pyStrip c) := by
            rw [hitc]
            have h1 : normalizeContent a = pyLower a := by
              unfold normalizeContent
              rw [htr]
            have h2 : normalizeContent (pyStrip c) = pyLower (pyStrip c) := by
              unfold normalizeContent
              rw [pyStrip_idem]
            rw [← h1, hna, h2]
          simp [hlow, hitu]
        constructor
        · unfold OwnerUnique
          rw [hoc, List.map_append]
          rw [List.nodup_append]
          refine ⟨(hinv v).1, List.nodup_singleton _, ?_⟩
          intro x hx hx1
          rw [List.map_singleton, List.mem_singleton] at hx1
          rw [hx1] at hx
          exact hnotin hx
        · intro cc hcc
          rw [hoc] at hcc
          rcases List.mem_append.mp hcc with h | h
          · exact (hinv v).2 cc h
          · rw [List.mem_singleton.mp h]
            exact pyStrip_idem c
      · have hoc : ownerContents ⟨st.items ++ [⟨st.nextId, pyStrip c, u⟩], st.nextId + 1⟩ v
            = ownerContents st v := by
          unfold ownerContents
          rw [List.filter_append, List.map_append]
          have : (([⟨st.nextId, pyStrip c, u⟩] : List Item).filter
              (fun it => it.user_id == v)) = [] := by
            simp
            exact fun h => hv h.symm
          rw [this]
          simp
        constructor
        · unfold OwnerUnique
          rw [hoc]
          exact (hinv v).1
        · intro cc hcc
          rw [hoc] at hcc
          exact (hinv v).2 cc hcc

theorem delete_preserves_inv (st : DBState) (u : Nat) (t : String)
    (hinv : ∀ w, OwnerUnique st w ∧ OwnerTrimmed st w) :
    ∀ v, OwnerUnique ((handle_delete st ⟨"DELETE", none, some ⟨t⟩⟩ u).2.2) v
      ∧ OwnerTrimmed ((handle_delete st ⟨"DELETE", none, some ⟨t⟩⟩ u).2.2) v := by
  intro v
  rcases handle_delete_state st ⟨"DELETE", none, some ⟨t⟩⟩ u with h | h
  · rw [h]
    exact hinv v
  · rw [h]
    have hsub : List.Sublist
        (ownerContents ⟨st.items.filter (fun it =>
          !(it.content == ((⟨"DELETE", none, some ⟨t⟩⟩ : DatabaseOperation).whereClause.map
            WhereClause.content).getD "" && it.user_id == u)), st.nextId⟩ v)
        (ownerContents st v) := by
      unfold ownerContents
      exact ((List.filter_sublist st.items).filter _).map _
    constructor
    · unfold OwnerUnique
      exact (hinv v).1.sublist (hsub.map normalizeContent)
    · intro cc hcc
      exact (hinv v).2 cc (hsub.subset hcc)

theorem inv_dbEmpty : ∀ v, OwnerUnique dbEmpty v ∧ OwnerTrimmed dbEmpty v := by
  intro v
  constructor
  · simp [OwnerUnique, ownerContents, dbEmpty]
  · intro cc hcc
    simp [ownerContents, dbEmpty] at hcc

theorem applyOps_preserves_inv (ops : List ReqOp) :
    ∀ st, (∀ op ∈ ops, op.isInsertOrDelete = true) →
      (∀ w, OwnerUnique st w ∧ OwnerTrimmed st w) →
      ∀ v, OwnerUnique (applyOps st ops) v ∧ OwnerTrimmed (applyOps st ops) v := by
  induction ops with
  | nil =>
    intro st _ hinv v
    exact hinv v
  | cons op rest ih =>
    intro st hops hinv v
    have hop := hops op (List.mem_cons_self op rest)
    have hrest : ∀ o ∈ rest, o.isInsertOrDelete = true :=
      fun o ho => hops o (List.mem_cons_of_mem op ho)
    have hnext : ∀ w, OwnerUnique (applyOp st op) w ∧ OwnerTrimmed (applyOp st op) w := by
      cases op with
      | ins u c => exact insert_preserves_inv st u c hinv
      | del u t => exact delete_preserves_inv st u t hinv
      | upd u t c => simp [ReqOp.isInsertOrDelete] at hop
    exact ih (applyOp st op) hrest hnext v

/-! ## Claim theorems -/

/-- C1: constructing an `LLMResponse` with `ambiguous_request` populated
together with `database_operation` or `suggestion` always fails the
construction-time validator; constructing one with exactly one of the three
top-level fields populated, or with `database_operation` plus `suggestion`,
always succeeds. -/
theorem C1_exclusivity_invariant :
    (∀ (op : Option DatabaseOperation) (amb : Option AmbiguousRequest)
        (sugg : Option Suggestion),
      amb.isSome = true → (op.isSome = true ∨ sugg.isSome = true) →
        mkLLMResponse op amb sugg
          = Except.error "ambiguous_request cannot be set with database_operation or suggestion")
    ∧ (∀ op : DatabaseOperation,
        mkLLMResponse (some op) none none = Except.ok ⟨some op, none, none⟩)
    ∧ (∀ amb : AmbiguousRequest,
        mkLLMResponse none (some amb) none = Except.ok ⟨none, some amb, none⟩)
    ∧ (∀ sugg : Suggestion,
        mkLLMResponse none none (some sugg) = Except.ok ⟨none, none, some sugg⟩)
    ∧ (∀ (op : DatabaseOperation) (sugg : Suggestion),
        mkLLMResponse (some op) none (some sugg)
          = Except.ok ⟨some op, none, some sugg⟩) := by
  refine ⟨?_, fun op => rfl, fun amb => rfl, fun sugg => rfl, fun op sugg => rfl⟩
  intro op amb sugg hamb hops
  have hb : (op.isSome || sugg.isSome) = true := by
    rcases hops with h | h <;> simp [h]
  simp [mkLLMResponse, LLMResponse.check_exclusive_fields, hamb, hb]

/-- C1 witness: a concrete failing construction. -/
theorem C1_exclusivity_invariant_witness :
    mkLLMResponse (some ⟨"QUERY", none, none⟩) (some ⟨"Which item did you mean?"⟩) none
      = Except.error "ambiguous_request cannot be set with database_operation or suggestion" :=
  C1_exclusivity_invariant.1 (some ⟨"QUERY", none, none⟩)
    (some ⟨"Which item did you mean?"⟩) none rfl (Or.inl rfl)

/-- C2 counterexample: the claim quantifies over sequences containing Update,
but `_handle_update` performs no duplicate check, so updating "eggs" to
"milk" while "milk" is already stored leaves owner 1 with two rows whose
normalized content is identical. -/
theorem C2_counterexample :
    ¬ OwnerUnique (applyOps dbEmpty
        [ReqOp.ins 1 "milk", ReqOp.ins 1 "eggs", ReqOp.upd 1 "eggs" "milk"]) 1 := by
  unfold OwnerUnique
  decide

/-- C2 (amended): for every owner and every sequence of Insert and Delete
operations applied through the handlers starting from the empty store, no
two items of that owner have case-insensitive, whitespace-trimmed identical
content.  (Update, which the original claim also allowed, performs no
duplicate check and can violate the invariant.) -/
theorem C2_uniqueness_invariant (ops : List ReqOp)
    (hops : ∀ op ∈ ops, op.isInsertOrDelete = true) (u : Nat) :
    OwnerUnique (applyOps dbEmpty ops) u :=
  (applyOps_preserves_inv ops dbEmpty hops inv_dbEmpty u).1

/-- C2 witness: a concrete Insert/Insert/Delete sequence keeps the invariant. -/
theorem C2_uniqueness_invariant_witness :
    OwnerUnique (applyOps dbEmpty
      [ReqOp.ins 1 "milk", ReqOp.ins 1 "Milk ", ReqOp.del 1 "milk"]) 1 :=
  C2_uniqueness_invariant
    [ReqOp.ins 1 "milk", ReqOp.ins 1 "Milk ", ReqOp.del 1 "milk"]
    (by decide) 1

/-- C3: a storage fault raised inside the Insert handler after its prior
successful reads (the context read and the duplicate-check read) rolls the
transaction back before the failure propagates, leaving the owner's rows and
row count exactly as before the request, and `managed_cursor` closes the
connection on every exit path. -/
theorem C3_rollback_on_fault :
    (∀ (a : LLMAssistant) (st : DBState) (user_id : Nat) (user_text content : String),
      (managed_cursor true (insert_fault_body a user_id user_text content) st).result
          = Except.error ()
        ∧ (managed_cursor true (insert_fault_body a user_id user_text content) st).rolledBack
          = true
        ∧ (managed_cursor true (insert_fault_body a user_id user_text content) st).committed
          = false
        ∧ (managed_cursor true (insert_fault_body a user_id user_text content) st).finalDb = st
        ∧ ownerRows (managed_cursor true
            (insert_fault_body a user_id user_text content) st).finalDb user_id
          = ownerRows st user_id
        ∧ (ownerRows (managed_cursor true
            (insert_fault_body a user_id user_text content) st).finalDb user_id).length
          = (ownerRows st user_id).length)
    ∧ (∀ (α : Type) (commit_on_exit : Bool) (body : DBState → Except Unit (α × DBState))
        (st : DBState), (managed_cursor commit_on_exit body st).closed = true) := by
  constructor
  · intro a st user_id user_text content
    exact ⟨rfl, rfl, rfl, rfl, rfl, rfl⟩
  · intro α commit_on_exit body st
    unfold managed_cursor
    split
    · split
      · rfl
      · rfl
    · rfl

/-- C4: for every owner whose list has no normalized match for "buy milk",
inserting "Buy Milk" succeeds with created (201), then inserting
"  buy milk  " yields conflict (409) returning the existing row id and
adding no row, and exactly one row stores the trimmed, not lowercased,
content "Buy Milk". -/
theorem C4_insert_idempotence (st : DBState) (uid : Nat)
    (hclean : ∀ it ∈ st.items, it.user_id = uid → pyLower it.content ≠ "buy milk") :
    (handle_insert st ⟨"INSERT", some ⟨"Buy Milk"⟩, none⟩ uid).2.1 = 201
    ∧ (handle_insert st ⟨"INSERT", some ⟨"Buy Milk"⟩, none⟩ uid).1.success = some true
    ∧ (handle_insert ((handle_insert st ⟨"INSERT", some ⟨"Buy Milk"⟩, none⟩ uid).2.2)
        ⟨"INSERT", some ⟨"  buy milk  "⟩, none⟩ uid).2.1 = 409
    ∧ (handle_insert ((handle_insert st ⟨"INSERT", some ⟨"Buy Milk"⟩, none⟩ uid).2.2)
        ⟨"INSERT", some ⟨"  buy milk  "⟩, none⟩ uid).1.itemId = some st.nextId
    ∧ (handle_insert ((handle_insert st ⟨"INSERT", some ⟨"Buy Milk"⟩, none⟩ uid).2.2)
        ⟨"INSERT", some ⟨"  buy milk  "⟩, none⟩ uid).2.2
      = (handle_insert st ⟨"INSERT", some ⟨"Buy Milk"⟩, none⟩ uid).2.2
    ∧ ((handle_insert st ⟨"INSERT", some ⟨"Buy Milk"⟩, none⟩ uid).2.2).items.filter
        (fun it => it.user_id == uid && it.content == "Buy Milk")
      = [⟨st.nextId, "Buy Milk", uid⟩] := by
  have e1 : pyLower (pyStrip "Buy Milk") = "buy milk" := by decide
  have e2 : pyLower (pyStrip "  buy milk  ") = "buy milk" := by decide
  have e3 : pyLower "Buy Milk" = "buy milk" := by decide
  have es : pyStrip "Buy Milk" = "Buy Milk" := by decide
  have hfnone : st.items.find? (fun it => pyLower it.content == "buy milk"
      && it.user_id == uid) = none := by
    apply List.find?_eq_none.mpr
    intro it hit
    by_cases hu : it.user_id = uid
    · simp [hclean it hit hu, hu]
    · simp [hu]
  have hf1 : st.items.find? (fun it => pyLower it.content == pyLower (pyStrip "Buy Milk")
      && it.user_id == uid) = none := by
    simp only [e1]
    exact hfnone
  have h1 := @handle_insert_eq_success st "Buy Milk" uid (by decide) hf1
  rw [h1, es]
  dsimp only
  have hf2 : (st.items ++ [(⟨st.nextId, "Buy Milk", uid⟩ : Item)]).find?
      (fun it => pyLower it.content == pyLower (pyStrip "  buy milk  ")
        && it.user_id == uid) = some (⟨st.nextId, "Buy Milk", uid⟩ : Item) := by
    simp only [e2]
    simp [List.find?_append, hfnone, e3]
  have h2 := @handle_insert_eq_conflict
    ⟨st.items ++ [⟨st.nextId, "Buy Milk", uid⟩], st.nextId + 1⟩
    "  buy milk  " uid ⟨st.nextId, "Buy Milk", uid⟩ (by decide) hf2
  rw [h2]
  refine ⟨rfl, rfl, rfl, rfl, rfl, ?_⟩
  rw [List.filter_append]
  have hnil : st.items.filter (fun it => it.user_id == uid && it.content == "Buy Milk")
      = [] := by
    apply List.filter_eq_nil_iff.mpr
    intro it hit
    by_cases hu : it.user_id = uid
    · intro hcontra
      have hcm : it.content = "Buy Milk" := by
        have := hcontra
        simp [hu] at this
        exact this
      apply hclean it hit hu
      rw [hcm]
      exact e3
    · simp [hu]
  rw [hnil]
  simp

/-- C4 witness: the scenario on the empty store. -/
theorem C4_insert_idempotence_witness :
    (handle_insert ((handle_insert dbEmpty ⟨"INSERT", some ⟨"Buy Milk"⟩, none⟩ 1).2.2)
        ⟨"INSERT", some ⟨"  buy milk  "⟩, none⟩ 1).2.1 = 409
    ∧ ((handle_insert dbEmpty ⟨"INSERT", some ⟨"Buy Milk"⟩, none⟩ 1).2.2).items.filter
        (fun it => it.user_id == 1 && it.content == "Buy Milk")
      = [⟨1, "Buy Milk", 1⟩] := by
  have h := C4_insert_idempotence dbEmpty 1 (by decide)
  exact ⟨h.2.2.1, h.2.2.2.2.2⟩

/-- C10: an Insert whose content is a non-empty, all-whitespace string
passes the missing-content check, normalizes to the empty string for the
duplicate check, and (when the owner has no stored row normalizing to the
empty string) inserts a row whose stored content is the empty string with
outcome created (201), not bad-request. -/
theorem C10_whitespace_content_insert (st : DBState) (uid : Nat) (c : String)
    (hne : c ≠ "") (hws : pyStrip c = "")
    (hclean : ∀ it ∈ st.items, it.user_id = uid → pyLower it.content ≠ "") :
    pyLower (pyStrip c) = ""
    ∧ handle_insert st ⟨"INSERT", some ⟨c⟩, none⟩ uid
      = (⟨some true, some "Item added successfully.", some st.nextId, none,
          some "mutation", none⟩, 201,
         ⟨st.items ++ [⟨st.nextId, "", uid⟩], st.nextId + 1⟩) := by
  have hnorm : pyLower (pyStrip c) = "" := by
    rw [hws]
    rfl
  refine ⟨hnorm, ?_⟩
  have hf : st.items.find? (fun it => pyLower it.content == pyLower (pyStrip c)
      && it.user_id == uid) = none := by
    apply List.find?_eq_none.mpr
    intro it hit
    by_cases hu : it.user_id = uid
    · simp [hnorm, hclean it hit hu, hu]
    · simp [hu]
  have h := handle_insert_eq_success hne hf
  rw [h, hws]

/-- C10 witness: inserting three spaces on the empty store. -/
theorem C10_whitespace_content_insert_witness :
    handle_insert dbEmpty ⟨"INSERT", some ⟨"   "⟩, none⟩ 1
      = (⟨some true, some "Item added successfully.", some 1, none,
          some "mutation", none⟩, 201, ⟨[⟨1, "", 1⟩], 2⟩) := by
  have h := C10_whitespace_content_insert dbEmpty 1 "   " (by decide) (by decide) (by decide)
  exact h.2

/-- Evaluating `process_request` when the `with`-block body runs to
completion: the transaction commits and the connection is closed. -/
theorem process_request_of_body_ok {a : LLMAssistant} {uid : Nat}
    {user_text : String} {st st' : DBState} {d : ResponseData} {c : Nat}
    {accessed network : Bool} (h : user_text ≠ "")
    (hbody : process_request_body a uid user_text st
      = Except.ok (((d, c), accessed, network), st')) :
    process_request a uid user_text st = ⟨d, c, st', accessed, network, true, false, true⟩ := by
  unfold process_request
  rw [if_neg h]
  unfold managed_cursor
  rw [hbody]
  rfl

/-- C5: Update and Delete affect a row only on exact stored-content match:
when no stored row of the owner equals the target exactly (for example a
match only after normalization), both handlers affect zero rows, answer
not-found (404), leave the state unchanged — and the not-found outcome
still commits the transaction. -/
theorem C5_update_delete_exactness :
    (∀ (st : DBState) (uid : Nat) (target newc : String),
      newc ≠ "" → target ≠ "" →
      (∀ it ∈ st.items, it.user_id = uid → it.content ≠ target) →
      handle_update st ⟨"UPDATE", some ⟨newc⟩, some ⟨target⟩⟩ uid
        = (⟨some false, some "No item found with that content to update.", none, none,
            some "mutation", none⟩, 404, st))
    ∧ (∀ (st : DBState) (uid : Nat) (target : String),
      target ≠ "" →
      (∀ it ∈ st.items, it.user_id = uid → it.content ≠ target) →
      handle_delete st ⟨"DELETE", none, some ⟨target⟩⟩ uid
        = (⟨some false, some "No item found with that content to delete.", none, none,
            some "mutation", none⟩, 404, st))
    ∧ (∀ (a : LLMAssistant) (st : DBState) (uid : Nat)
        (user_text target newc : String) (resp : LLMResponse) (nb : Bool),
      user_text ≠ "" →
      get_database_operation_from_text a user_text
          (st.items.filter (fun it => it.user_id == uid)) = (some resp, nb) →
      resp.ambiguous_request = none →
      resp.database_operation = some ⟨"UPDATE", some ⟨newc⟩, some ⟨target⟩⟩ →
      newc ≠ "" → target ≠ "" →
      (∀ it ∈ st.items, it.user_id = uid → it.content ≠ target) →
      (process_request a uid user_text st).status = 404
        ∧ (process_request a uid user_text st).db = st
        ∧ (process_request a uid user_text st).committed = true
        ∧ (process_request a uid user_text st).closed = true) := by
  refine ⟨fun st uid target newc h1 h2 h3 => handle_update_notfound h1 h2 h3,
    fun st uid target h1 h2 => handle_delete_notfound h1 h2, ?_⟩
  intro a st uid user_text target newc resp nb htext hget hamb hop hnew htgt hmiss
  have hupd := @handle_update_notfound st uid target newc hnew htgt hmiss
  have hbody : process_request_body a uid user_text st
      = Except.ok (((⟨some false, some "No item found with that content to update.",
          none, none, some "mutation", none⟩, 404), true, nb), st) := by
    unfold process_request_body
    simp only [hget, hamb, hop]
    have hb : build_final_response (⟨some false,
        some "No item found with that content to update.", none, none,
        some "mutation", none⟩ : ResponseData) 404 (some resp)
        = (⟨some false, some "No item found with that content to update.", none, none,
            some "mutation", none⟩, 404) :=
      build_final_response_not_success (some resp) (by omega)
    simp [hupd, hb]
  rw [process_request_of_body_ok htext hbody]
  exact ⟨rfl, rfl, rfl, rfl⟩

/-- C5 witness: stored "Buy Milk", targets "buy milk" — normalized match but
not exact — for both handlers and through a full request. -/
theorem C5_update_delete_exactness_witness :
    (handle_update ⟨[⟨1, "Buy Milk", 7⟩], 2⟩ ⟨"UPDATE", some ⟨"oat milk"⟩,
        some ⟨"buy milk"⟩⟩ 7
      = (⟨some false, some "No item found with that content to update.", none, none,
          some "mutation", none⟩, 404, ⟨[⟨1, "Buy Milk", 7⟩], 2⟩))
    ∧ (handle_delete ⟨[⟨1, "Buy Milk", 7⟩], 2⟩ ⟨"DELETE", none, some ⟨"buy milk"⟩⟩ 7
      = (⟨some false, some "No item found with that content to delete.", none, none,
          some "mutation", none⟩, 404, ⟨[⟨1, "Buy Milk", 7⟩], 2⟩))
    ∧ ((process_request ⟨some (fun _ _ => some ⟨some ⟨"UPDATE", some ⟨"oat milk"⟩,
          some ⟨"buy milk"⟩⟩, none, none⟩)⟩ 7 "change buy milk"
          ⟨[⟨1, "Buy Milk", 7⟩], 2⟩).status = 404
      ∧ (process_request ⟨some (fun _ _ => some ⟨some ⟨"UPDATE", some ⟨"oat milk"⟩,
          some ⟨"buy milk"⟩⟩, none, none⟩)⟩ 7 "change buy milk"
          ⟨[⟨1, "Buy Milk", 7⟩], 2⟩).db = ⟨[⟨1, "Buy Milk", 7⟩], 2⟩
      ∧ (process_request ⟨some (fun _ _ => some ⟨some ⟨"UPDATE", some ⟨"oat milk"⟩,
          some ⟨"buy milk"⟩⟩, none, none⟩)⟩ 7 "change buy milk"
          ⟨[⟨1, "Buy Milk", 7⟩], 2⟩).committed = true) := by
  refine ⟨C5_update_delete_exactness.1 ⟨[⟨1, "Buy Milk", 7⟩], 2⟩ 7 "buy milk" "oat milk"
      (by decide) (by decide) (by decide),
    C5_update_delete_exactness.2.1 ⟨[⟨1, "Buy Milk", 7⟩], 2⟩ 7 "buy milk"
      (by decide) (by decide), ?_⟩
  have h := C5_update_delete_exactness.2.2 ⟨some (fun _ _ => some ⟨some ⟨"UPDATE",
      some ⟨"oat milk"⟩, some ⟨"buy milk"⟩⟩, none, none⟩)⟩ ⟨[⟨1, "Buy Milk", 7⟩], 2⟩ 7
      "change buy milk" "buy milk" "oat milk"
      ⟨some ⟨"UPDATE", some ⟨"oat milk"⟩, some ⟨"buy milk"⟩⟩, none, none⟩ true
      (by decide) rfl rfl rfl (by decide) (by decide) (by decide)
  exact ⟨h.1, h.2.1, h.2.2.1⟩

/-- C6: for distinct owners, Update/Delete by one owner targeting content
that exists only for the other yields not-found and leaves every row
unchanged; moreover no handler mutates another owner's rows (frame), and
every handler's payload and status depend only on the caller's own rows
(and the row counter), i.e. no handler reads another owner's items. -/
theorem C6_owner_isolation :
    (∀ (st : DBState) (u1 u2 : Nat) (target newc : String),
      u1 ≠ u2 → newc ≠ "" → target ≠ "" →
      (∀ it ∈ st.items, it.user_id = u1 → it.content ≠ target) →
      (∃ it ∈ st.items, it.user_id = u2 ∧ it.content = target) →
      (handle_update st ⟨"UPDATE", some ⟨newc⟩, some ⟨target⟩⟩ u1).2.1 = 404
        ∧ (handle_update st ⟨"UPDATE", some ⟨newc⟩, some ⟨target⟩⟩ u1).2.2 = st
        ∧ (handle_delete st ⟨"DELETE", none, some ⟨target⟩⟩ u1).2.1 = 404
        ∧ (handle_delete st ⟨"DELETE", none, some ⟨target⟩⟩ u1).2.2 = st
        ∧ ownerRows (handle_update st ⟨"UPDATE", some ⟨newc⟩, some ⟨target⟩⟩ u1).2.2 u2
            = ownerRows st u2
        ∧ ownerRows (handle_delete st ⟨"DELETE", none, some ⟨target⟩⟩ u1).2.2 u2
            = ownerRows st u2)
    ∧ (∀ (st : DBState) (db_op : DatabaseOperation) (u v : Nat), v ≠ u →
        ownerRows (handle_insert st db_op u).2.2 v = ownerRows st v
          ∧ ownerRows (handle_update st db_op u).2.2 v = ownerRows st v
          ∧ ownerRows (handle_delete st db_op u).2.2 v = ownerRows st v
          ∧ ownerRows (handle_query st db_op u).2.2 v = ownerRows st v)
    ∧ (∀ (st1 st2 : DBState) (db_op : DatabaseOperation) (u : Nat),
        ownerRows st1 u = ownerRows st2 u → st1.nextId = st2.nextId →
        ((handle_insert st1 db_op u).1, (handle_insert st1 db_op u).2.1)
            = ((handle_insert st2 db_op u).1, (handle_insert st2 db_op u).2.1)
          ∧ ((handle_update st1 db_op u).1, (handle_update st1 db_op u).2.1)
            = ((handle_update st2 db_op u).1, (handle_update st2 db_op u).2.1)
          ∧ ((handle_delete st1 db_op u).1, (handle_delete st1 db_op u).2.1)
            = ((handle_delete st2 db_op u).1, (handle_delete st2 db_op u).2.1)
          ∧ ((handle_query st1 db_op u).1, (handle_query st1 db_op u).2.1)
            = ((handle_query st2 db_op u).1, (handle_query st2 db_op u).2.1)) := by
  refine ⟨?_, ?_, ?_⟩
  · intro st u1 u2 target newc hne hnew htgt hmiss hex
    have hu := @handle_update_notfound st u1 target newc hnew htgt hmiss
    have hd := @handle_delete_notfound st u1 target htgt hmiss
    rw [hu, hd]
    exact ⟨rfl, rfl, rfl, rfl, rfl, rfl⟩
  · intro st db_op u v hvu
    exact ⟨insert_frame st db_op u v hvu, update_frame st db_op u v hvu,
      delete_frame st db_op u v hvu, query_frame st db_op u v⟩
  · intro st1 st2 db_op u hrows hnext
    exact ⟨insert_reads_only_owner st1 st2 db_op u hrows hnext,
      update_reads_only_owner st1 st2 db_op u hrows,
      delete_reads_only_owner st1 st2 db_op u hrows,
      query_reads_only_owner st1 st2 db_op u hrows⟩

/-- C6 witness: owner 1 deletes/updates "milk", which only owner 2 has. -/
theorem C6_owner_isolation_witness :
    (handle_update ⟨[⟨1, "milk", 2⟩], 2⟩ ⟨"UPDATE", some ⟨"oat milk"⟩,
        some ⟨"milk"⟩⟩ 1).2.1 = 404
    ∧ (handle_delete ⟨[⟨1, "milk", 2⟩], 2⟩ ⟨"DELETE", none, some ⟨"milk"⟩⟩ 1).2.2
        = ⟨[⟨1, "milk", 2⟩], 2⟩
    ∧ ownerRows (handle_delete ⟨[⟨1, "milk", 2⟩], 2⟩ ⟨"DELETE", none,
        some ⟨"milk"⟩⟩ 1).2.2 2 = ownerRows ⟨[⟨1, "milk", 2⟩], 2⟩ 2 := by
  have h := C6_owner_isolation.1 ⟨[⟨1, "milk", 2⟩], 2⟩ 1 2 "milk" "oat milk"
    (by decide) (by decide) (by decide) (by decide) (by decide)
  exact ⟨h.1, h.2.2.2.1, h.2.2.2.2.2⟩

/-- C7: the final payload carries a suggestion block exactly when the
outcome code is in the success band (below 300) and the translation result
carried a suggestion; failed outcomes (conflict 409, not-found 404,
rejected-ambiguous 400) never have it attached. -/
theorem C7_suggestion_attachment :
    (∀ (base : ResponseData) (c : Nat) (r : LLMResponse),
      base.suggestion = none →
      (((build_final_response base c (some r)).1.suggestion.isSome = true)
          ↔ (c < 300 ∧ r.suggestion.isSome = true))
      ∧ (∀ sg : Suggestion, r.suggestion = some sg → c < 300 →
          build_final_response base c (some r)
            = ({ base with suggestion := some sg }, c))
      ∧ (¬ c < 300 → build_final_response base c (some r) = (base, c)))
    ∧ (∀ (a : LLMAssistant) (st : DBState) (uid : Nat) (user_text : String)
        (resp : LLMResponse) (amb : AmbiguousRequest) (nb : Bool),
      user_text ≠ "" →
      get_database_operation_from_text a user_text
          (st.items.filter (fun it => it.user_id == uid)) = (some resp, nb) →
      resp.ambiguous_request = some amb →
      (process_request a uid user_text st).payload.suggestion = none
        ∧ (process_request a uid user_text st).status = 400) := by
  constructor
  · intro base c r hbase
    refine ⟨?_, fun sg hs hc => build_final_response_success hc hs,
      fun hc => build_final_response_not_success (some r) hc⟩
    cases hs : r.suggestion with
    | none =>
      rw [build_final_response_no_suggestion hs]
      simp [hbase, hs]
    | some sg =>
      by_cases hc : c < 300
      · rw [build_final_response_success hc hs]
        simp [hc, hs]
      · rw [build_final_response_not_success (some r) hc]
        simp [hbase, hc]
  · intro a st uid user_text resp amb nb htext hget hamb
    have hbody : process_request_body a uid user_text st
        = Except.ok (((⟨some false, none, none, some amb.message, none, none⟩, 400),
          true, nb), st) := by
      unfold process_request_body
      simp only [hget, hamb]
    rw [process_request_of_body_ok htext hbody]
    exact ⟨rfl, rfl⟩

/-- C7 witness: attached on created (201), never on not-found (404). -/
theorem C7_suggestion_attachment_witness :
    build_final_response ⟨some true, some "Item added successfully.", some 1, none,
        some "mutation", none⟩ 201
        (some ⟨none, none, some ⟨"You might also need:", ["butter"]⟩⟩)
      = (⟨some true, some "Item added successfully.", some 1, none, some "mutation",
          some ⟨"You might also need:", ["butter"]⟩⟩, 201)
    ∧ build_final_response ⟨some false, some "No item found with that content to update.",
        none, none, some "mutation", none⟩ 404
        (some ⟨none, none, some ⟨"You might also need:", ["butter"]⟩⟩)
      = (⟨some false, some "No item found with that content to update.", none, none,
          some "mutation", none⟩, 404) := by
  constructor
  · exact (C7_suggestion_attachment.1 ⟨some true, some "Item added successfully.", some 1,
      none, some "mutation", none⟩ 201 ⟨none, none,
      some ⟨"You might also need:", ["butter"]⟩⟩ rfl).2.1
      ⟨"You might also need:", ["butter"]⟩ rfl (by omega)
  · exact (C7_suggestion_attachment.1 ⟨some false,
      some "No item found with that content to update.", none, none, some "mutation",
      none⟩ 404 ⟨none, none, some ⟨"You might also need:", ["butter"]⟩⟩ rfl).2.2
      (by omega)

/-- C8: the Query handler never fails: it always answers success (200);
an empty owner list yields the "no items" message, a single item yields the
singular phrasing naming it, and two or more items yield the comma-joined
listing of every item's content. -/
theorem C8_query_grammar :
    ∀ (st : DBState) (db_op : DatabaseOperation) (uid : Nat),
      ((handle_query st db_op uid).2.1 = 200
        ∧ (handle_query st db_op uid).1.success = some true
        ∧ (handle_query st db_op uid).2.2 = st)
      ∧ (ownerContents st uid = [] →
          (handle_query st db_op uid).1.message
            = some "You do not have any items on your list.")
      ∧ (∀ c, ownerContents st uid = [c] →
          (handle_query st db_op uid).1.message
            = some ("You have one item: " ++ sQuote ++ c ++ sQuote ++ "."))
      ∧ (∀ c1 c2 cs, ownerContents st uid = c1 :: c2 :: cs →
          (handle_query st db_op uid).1.message
            = some ("Your items are: " ++ String.intercalate ", "
                ((c1 :: c2 :: cs).map (fun c => sQuote ++ c ++ sQuote)) ++ ".")) := by
  intro st db_op uid
  refine ⟨⟨rfl, rfl, rfl⟩, ?_, ?_, ?_⟩
  · intro h
    unfold ownerContents at h
    unfold handle_query
    simp only [h, List.map_nil]
  · intro c h
    unfold ownerContents at h
    unfold handle_query
    simp only [h, List.map_cons, List.map_nil, String.append_assoc]
  · intro c1 c2 cs h
    unfold ownerContents at h
    unfold handle_query
    simp only [h, List.map_cons]

/-- C8 witness: the three shapes on concrete stores. -/
theorem C8_query_grammar_witness :
    (handle_query dbEmpty ⟨"QUERY", none, none⟩ 1).1.message
        = some "You do not have any items on your list."
    ∧ (handle_query ⟨[⟨1, "milk", 1⟩], 2⟩ ⟨"QUERY", none, none⟩ 1).1.message
        = some ("You have one item: " ++ sQuote ++ "milk" ++ sQuote ++ ".")
    ∧ (handle_query ⟨[⟨1, "a", 1⟩, ⟨2, "b", 1⟩], 3⟩ ⟨"QUERY", none, none⟩ 1).1.message
        = some ("Your items are: " ++ String.intercalate ", "
            (["a", "b"].map (fun c => sQuote ++ c ++ sQuote)) ++ ".") := by
  refine ⟨(C8_query_grammar dbEmpty ⟨"QUERY", none, none⟩ 1).2.1 (by decide),
    (C8_query_grammar ⟨[⟨1, "milk", 1⟩], 2⟩ ⟨"QUERY", none, none⟩ 1).2.2.1 "milk"
      (by decide), ?_⟩
  exact (C8_query_grammar ⟨[⟨1, "a", 1⟩, ⟨2, "b", 1⟩], 3⟩ ⟨"QUERY", none, none⟩ 1).2.2.2
    "a" "b" [] (by decide)

/-- C9 counterexample: with the model unavailable, `process_request` still
executes the context-read `SELECT` before invoking the translator, so
storage IS accessed on the translation-unavailable path — the claim's
"no storage access occurring" is false on the code. -/
theorem C9_counterexample :
    (process_request (LLMAssistant.init none (fun _ _ => none)) 1 "add milk"
        dbEmpty).storageAccessed = true := by
  rfl

/-- C9 (amended): when the external model is not configured, the translator
immediately returns failure without attempting network I/O; the dispatcher
surfaces this as a 500 translation-failure response and performs no storage
mutation (the state is unchanged) — although the context read of the
owner's items does run before translation. -/
theorem C9_translator_unavailable (chainImpl : Chain) (uid : Nat)
    (user_text : String) (st : DBState) (htext : user_text ≠ "") :
    get_database_operation_from_text (LLMAssistant.init none chainImpl) user_text
        (st.items.filter (fun it => it.user_id == uid)) = (none, false)
    ∧ (process_request (LLMAssistant.init none chainImpl) uid user_text st).networkAttempted
        = false
    ∧ (process_request (LLMAssistant.init none chainImpl) uid user_text st).status = 500
    ∧ (process_request (LLMAssistant.init none chainImpl) uid user_text st).payload
        = errorResponse "Failed to understand the request or LLM is not configured."
    ∧ (process_request (LLMAssistant.init none chainImpl) uid user_text st).db = st
    ∧ (process_request (LLMAssistant.init none chainImpl) uid user_text st).storageAccessed
        = true := by
  have hbody : process_request_body (LLMAssistant.init none chainImpl) uid user_text st
      = Except.ok (((errorResponse
          "Failed to understand the request or LLM is not configured.", 500),
        true, false), st) := rfl
  rw [process_request_of_body_ok htext hbody]
  exact ⟨rfl, rfl, rfl, rfl, rfl, rfl⟩

/-- C9 witness: the concrete unconfigured assistant on the empty store. -/
theorem C9_translator_unavailable_witness :
    (process_request (LLMAssistant.init none (fun _ _ => none)) 1 "add milk"
        dbEmpty).status = 500
    ∧ (process_request (LLMAssistant.init none (fun _ _ => none)) 1 "add milk"
        dbEmpty).networkAttempted = false
    ∧ (process_request (LLMAssistant.init none (fun _ _ => none)) 1 "add milk"
        dbEmpty).db = dbEmpty := by
  have h := C9_translator_unavailable (fun _ _ => none) 1 "add milk" dbEmpty (by decide)
  exact ⟨h.2.2.1, h.2.1, h.2.2.2.2.1⟩
